import Mathlib

/-!
Shallow embedding of the resilient external-completion gateway of
`myApp/views.py` (Django app "liorae.co"): the masked credential preview
`_mask`, the process-wide lazy client cache `_get_openai_client`, the reply
resolver `_llm_reply`, the chat HTTP handler `chatbot_response`, and the
health probe `chat_health`.

Conventions of the embedding:
* A parsed JSON document is the inductive `Json`; the handler receives the
  outcome of `json.loads` as `Option Json` (`none` = the body failed to
  parse, which the source answers with `HttpResponseBadRequest`).
* Python truthiness of a JSON value is `pyTruthy`; `x or y` on such values
  is expressed through it.
* Python `str.strip()` is `pyStrip` (drop-while-whitespace on both ends;
  the whitespace class is `Char.isWhitespace`, which covers the ASCII
  whitespace relevant here).
* The OpenAI SDK is external: the outcome of
  `client.chat.completions.create(...)` is an oracle
  `CompletionRequest → CallResult` carried in the environment `LlmEnv`,
  together with the value the client cache yields at the call
  (`LlmEnv.client`) and the `settings.DEBUG` flag.  A raised exception of
  the remote call is `CallResult.failure e` with `e` the exception text;
  a successful completion carries `message.content : Option String`
  (`none` = JSON null).
* A Python exception that no `try` in the source catches is the
  `HttpResult.fault` outcome of the handler.
-/

namespace Liorae

/-- A parsed JSON document, as produced by `json.loads`. -/
inductive Json where
  | null : Json
  | bool : Bool → Json
  | num : Int → Json
  | str : String → Json
  | arr : List Json → Json
  | obj : List (String × Json) → Json
deriving Repr

/-- Python truthiness of a parsed JSON value (`None`, `False`, `0`, `""`,
`[]`, `{}` are falsy). -/
def pyTruthy : Json → Bool
  | Json.null => false
  | Json.bool b => b
  | Json.num n => n != 0
  | Json.str s => s != ""
  | Json.arr xs => !xs.isEmpty
  | Json.obj fs => !fs.isEmpty

/-- `dict.get k` on a parsed JSON object: `json.loads` keeps the last
binding of a duplicated key, so the last matching pair wins; `none` is
Python `None` for a missing key. -/
def jsonGet (fields : List (String × Json)) (k : String) : Option Json :=
  fields.foldl (fun acc p => if p.1 = k then some p.2 else acc) none

/-- Drop leading and trailing whitespace from a list of characters:
the list-level core of Python `str.strip()`. -/
def stripList (l : List Char) : List Char :=
  (((l.dropWhile Char.isWhitespace).reverse.dropWhile Char.isWhitespace)).reverse

/-- Python `str.strip()`. -/
def pyStrip (s : String) : String := String.mk (stripList s.data)

/-- The fixed system prompt `SYSTEM_PROMPT` of `views.py`, verbatim
(a Python triple-quoted literal: it begins and ends with a newline); it is
sent as the first message of every remote completion request. -/
def SYSTEM_PROMPT : String :=
  "
You are Liora — a warm, capable, general-purpose AI companion for Lioraè Co.
Be kind, witty, concise, and actually useful. Match the user’s tone.
Use plain language. If feelings show up, acknowledge briefly, then problem-solve.
Ask at most one short follow-up when it truly helps.

Core behavior
- Be pragmatic and specific. Offer examples, checklists, and step-wise plans.
- If you don’t know, say so and suggest a next step (search, small test, expert).
- Safety: provide general info only (no medical/legal/financial guarantees). Encourage consulting a professional when appropriate.
- Avoid hallucinated specifics; prefer plain statements, small ranges, or “it depends + how to decide”.

About Lioraè Co. (facts you can use)
- What we do: strategy-first social media + content, light automation/CRM, dashboards, and funnels/landing pages.
- Outcomes: typical engagement lift within ~1–2 months; clearer pipeline/ROI within ~3–6 months (with consistent shipping).
- Ownership: all delivered assets, sites, and customized AI tools belong to the client.
- Cadence: weekly shipping and iteration; monthly retainers; upgrade or customize anytime.
- Channels & tools we’re fluent with: Instagram, TikTok, YouTube; Meta Ads, Google Ads; Figma/Notion; Shopify/Stripe; HubSpot; Klaviyo.
- Tone/brand: clear, friendly, no fluff; strategy first, creative with soul.

Service tiers (typical inclusions; scopes can be tailored)
1) IGNITE — “Smart Social Foundations” (approx. PHP 75,000 / month)
   - ~20 posts • 25 stories • 3 reels
   - AI-assisted captions/hashtags
   - Content calendar + auto-scheduling
   - Basic landing/portfolio + hosting
   - Monthly analytics report
   - Best for startups

2) SYNC — “Social + Web Alignment” (approx. PHP 95,000 / month)
   - ~30 posts • 35 stories • 6 reels
   - Campaign strategy & funnel planning
   - Landing page optimization + CRM hookups
   - AI trend suggestions + conversion copy
   - Lead & engagement dashboard
   - Lead-gen ready

3) VISION — “AI-Enhanced Growth Engine” (approx. PHP 120,000 / month, min. 3-month plan)
   - ~25 posts • 25 stories • 8 reels
   - Predictive campaign builder
   - Social listening & competitor analysis
   - Bi-weekly analytics & retargeting
   - Advanced dashboards & automation

4) AUTHORITY — “Omnipresence + Automation” (approx. PHP 150,000 / month)
   - Thought leadership + multi-channel presence
   - Heavier automation + repurposing

5) ASCEND — “Full Growth Ecosystem” (PHP 200,000+ / month)
   - Enterprise-style scope, >50 posts across platforms, multi-funnel orchestration

Process (how we work)
1) Discover & Audit — kickoff, goals, audience, baseline.
2) Strategy — messaging, pillars, campaign roadmap.
3) Setup — stack, scheduler, CRM, pixels, analytics.
4) Ship — weekly content (AI-assisted captions, best-time posting), light automations.
5) Review & Scale — dashboards, learnings, iterate, retarget, expand winners.

FAQs (quick answers)
- Do I need a website? Not required. We can ship a starter landing page in-package.
- How does AI help? Caption drafts, best-time posting, light automations, predictive prompts, time savings.
- Social-only? Yes—start with foundations; upgrade to funnels/automation later.
- When will results show? 1–2 months for engagement lift; 3–6 months for clearer ROI signals (depends on baseline, budget, and velocity).
- Who owns what? You do. We manage and optimize on your behalf.

Working style
- Keep answers crisp; use short lists, bold keywords sparingly, and avoid jargon.
- Default to practical frameworks (e.g., “3-step test plan”, “1-week sprint plan”, “hook-body-CTA”).
- Prefer examples tailored to the user’s niche when they’ve said it; otherwise suggest 2–3 niches as placeholders.

If the user asks about Lioraè services
- Offer to map them to a tier or design a custom scope.
- Suggest a 20-min discovery call for fit/brief + draft plan (typical response ~24h).
- Contact: hello@liorae.co (or direct the user to the “Contact” section if present).

Formatting & limits
- Use plain text or light Markdown. Avoid heavy decoration or emojis unless the user uses them.
- One follow-up question max, only if it significantly improves the answer.
- If a price/timeline/spec isn’t certain, state assumptions.

Refusals & sensitive content
- Decline unsafe/illegal requests; offer a safe alternative.
- Never claim professional, guaranteed outcomes; emphasize guidance and experiments.

Short self-description for context replies
- “I’m Liora, your friendly AI from Lioraè Co.—strategy-first social, content, and light automation that turns presence into pipeline.”

"

/-- The offline fallback of `_llm_reply` (returned when the client cache
yields no client). -/
def OFFLINE_FALLBACK : String :=
  "Got it. I don’t have my full AI brain connected yet. Share your main channel (IG/TikTok/LinkedIn), audience, and desired outcome, and I’ll sketch a quick plan."

/-- The recovery line substituted when the remote reply is empty after
trimming. -/
def BLANK_RECOVERY : String :=
  "I blanked for a sec—mind asking that one more time?"

/-- The fixed apology returned when the remote call raises and `DEBUG` is
off. -/
def APOLOGY : String :=
  "I hit a snag reaching my brain. Want to try again, or tell me the short version and I’ll help?"

/-- The debug prefix of the operator-visible error reply
`f"(DEBUG) OpenAI error: \x7be\x7d"`. -/
def DEBUG_PREFIX : String := "(DEBUG) OpenAI error: "

/-- The conversational nudge for an empty message. -/
def NUDGE : String := "What’s on your mind?"

/-- One `\x7brole, content\x7d` message of the remote completion request. -/
structure ChatMessage where
  role : String
  content : String
deriving Repr, DecidableEq

/-- The request `_llm_reply` issues through
`client.chat.completions.create`. -/
structure CompletionRequest where
  model : String
  temperature : ℚ
  maxTokens : ℕ
  messages : List ChatMessage
  timeoutSeconds : ℕ
deriving Repr, DecidableEq

/-- The request built by `_llm_reply` for a given user message: the fixed
system prompt first, then the user message verbatim. -/
def mkCompletionRequest (userMsg : String) : CompletionRequest where
  model := "gpt-4o-mini"
  temperature := 7 / 10
  maxTokens := 600
  messages := [⟨"system", SYSTEM_PROMPT⟩, ⟨"user", userMsg⟩]
  timeoutSeconds := 30

/-- Outcome of one remote completion call: a completion whose
`choices[0].message.content` is the carried `Option String` (`none` =
null), or any raised exception with its text. -/
inductive CallResult where
  | success : Option String → CallResult
  | failure : String → CallResult
deriving Repr, DecidableEq

/-- The client handle `OpenAI(api_key=key)` constructs. -/
structure ClientHandle where
  apiKey : String
deriving Repr, DecidableEq

/-- Environment of one `_llm_reply` call: what `_get_openai_client()`
returns at this call, the remote call's outcome as a function of the
request, and `settings.DEBUG`. -/
structure LlmEnv where
  client : Option ClientHandle
  oracle : CompletionRequest → CallResult
  debug : Bool

/-- `_llm_reply` of `views.py`: offline fallback when no client; otherwise
one remote call; on success the trimmed content (or the recovery line when
it trims to empty); on a raised failure the apology, or the debug-prefixed
raw error when `DEBUG` is on.  Total by construction: the source's
`try/except` catches every exception of the call. -/
def llm_reply (env : LlmEnv) (userMsg : String) : String :=
  match env.client with
  | none => OFFLINE_FALLBACK
  | some _ =>
    match env.oracle (mkCompletionRequest userMsg) with
    | CallResult.success content =>
      let reply := pyStrip (content.getD "")
      if reply = "" then BLANK_RECOVERY else reply
    | CallResult.failure e =>
      if env.debug then DEBUG_PREFIX ++ e else APOLOGY

/-- Outcome of the chat HTTP handler: a 200 `JsonResponse`, a 400
`HttpResponseBadRequest`, or an exception no handler code catches (which
the surrounding framework turns into a server error, not a 200). -/
inductive HttpResult where
  | ok : Json → HttpResult
  | badRequest : String → HttpResult
  | fault : String → HttpResult
deriving Repr

/-- The 200 body `\x7b"reply": s\x7d`. -/
def replyJson (s : String) : Json := Json.obj [("reply", Json.str s)]

/-- `chatbot_response` of `views.py` on a POST whose body parses (or not)
to `body`.  `json.loads` failing is answered with 400; then
`(data.get("message") or "").strip()` runs: `.get` on a non-object raises
`AttributeError`, a falsy field value is coerced to `""`, a truthy
non-string value makes `.strip()` raise `AttributeError`; an
empty-after-strip message short-circuits to the nudge; otherwise the
resolver's reply is wrapped. -/
def chatbot_response (env : LlmEnv) (body : Option Json) : HttpResult :=
  match body with
  | none => HttpResult.badRequest "Invalid JSON"
  | some (Json.obj fields) =>
    let v := (jsonGet fields "message").getD Json.null
    if pyTruthy v then
      match v with
      | Json.str s =>
        let userMsg := pyStrip s
        if userMsg = "" then HttpResult.ok (replyJson NUDGE)
        else HttpResult.ok (replyJson (llm_reply env userMsg))
      | _ => HttpResult.fault "AttributeError"
    else HttpResult.ok (replyJson NUDGE)
  | some _ => HttpResult.fault "AttributeError"

/-- The credential `key = getattr(settings, "OPENAI_API_KEY", None) or
os.getenv("OPENAI_API_KEY")` with the source's `if not key:` guard folded
in: the application setting wins when truthy (a non-empty string), the
environment variable is consulted otherwise, and an untruthy result
(absent or empty in both places) is `none`. -/
def resolveKey (settingsKey envKey : Option String) : Option String :=
  if settingsKey.getD "" != "" then some (settingsKey.getD "")
  else if envKey.getD "" != "" then some (envKey.getD "")
  else none

/-- The process-wide cache cell `_client_cache`: the sentinel "not built
yet", or the cached terminal result (a client, or `None` after any
failure). -/
inductive CacheState where
  | sentinel : CacheState
  | cached : Option ClientHandle → CacheState
deriving Repr, DecidableEq

/-- The part of the process environment one `_get_openai_client()` call
reads: whether `from openai import OpenAI` succeeded at module load,
the two credential sources, and whether `OpenAI(api_key=key)` would
raise. -/
structure BuildEnv where
  sdkInstalled : Bool
  settingsKey : Option String
  envKey : Option String
  constructOk : Bool
deriving Repr, DecidableEq

/-- Result of one `_get_openai_client()` call: the updated cache cell, the
returned value, and whether this call invoked the constructor
`OpenAI(api_key=key)`. -/
structure StepResult where
  state : CacheState
  ret : Option ClientHandle
  constructionAttempted : Bool
deriving Repr, DecidableEq

/-- `_get_openai_client` of `views.py` as a state transformer on the cache
cell: an already-decided cell is returned as is; otherwise a missing SDK or
an unresolvable key caches `None`; otherwise construction is attempted and
its outcome (the handle, or `None` when it raises) is cached.  Total: the
source never lets an exception escape this function. -/
def get_openai_client (env : BuildEnv) (st : CacheState) : StepResult :=
  match st with
  | CacheState.cached r => ⟨CacheState.cached r, r, false⟩
  | CacheState.sentinel =>
    if !env.sdkInstalled then ⟨CacheState.cached none, none, false⟩
    else
      match resolveKey env.settingsKey env.envKey with
      | none => ⟨CacheState.cached none, none, false⟩
      | some key =>
        if env.constructOk then
          ⟨CacheState.cached (some ⟨key⟩), some ⟨key⟩, true⟩
        else ⟨CacheState.cached none, none, true⟩

/-- A sequence of `_get_openai_client()` calls within one process, each
under its own (possibly changed) environment, threading the cache cell. -/
def runClientCalls (envs : List BuildEnv) (st : CacheState) : List StepResult :=
  match envs with
  | [] => []
  | e :: rest =>
    let r := get_openai_client e st
    r :: runClientCalls rest r.state

/-- `_mask` of `views.py`: first four characters, the ellipsis marker, and
the last four, for a truthy credential longer than eight characters;
otherwise the literal `(set)` / `(missing)` markers. -/
def mask (s : String) : String :=
  if s != "" && s.length > 8 then
    String.mk (s.data.take 4) ++ "…" ++ String.mk (s.data.drop (s.length - 4))
  else if s != "" then "(set)" else "(missing)"

/-- The Python truthiness chain `key_settings or key_env or ""` of
`chat_health`. -/
def pyOrKey (settingsKey envKey : Option String) : String :=
  if settingsKey.getD "" != "" then settingsKey.getD ""
  else if envKey.getD "" != "" then envKey.getD ""
  else ""

/-- The fields of the JSON object `chat_health` returns, in source order;
`client_initialized` reflects the `_get_openai_client()` call the probe
makes on the current cache cell. -/
def healthFields (env : BuildEnv) (st : CacheState) (debug : Bool) :
    List (String × Json) :=
  [("sdk_installed", Json.bool env.sdkInstalled),
   ("has_key_in_settings", Json.bool (env.settingsKey.getD "" != "")),
   ("has_key_in_env", Json.bool (env.envKey.getD "" != "")),
   ("key_seen", Json.str (mask (pyOrKey env.settingsKey env.envKey))),
   ("client_initialized", Json.bool (get_openai_client env st).ret.isSome),
   ("debug", Json.bool debug)]

/-- `chat_health` of `views.py`: the probe's JSON body and the cache cell
after its `_get_openai_client()` call. -/
def chat_health (env : BuildEnv) (st : CacheState) (debug : Bool) :
    Json × CacheState :=
  (Json.obj (healthFields env st debug), (get_openai_client env st).state)

/-- The string values among the fields of a flat JSON object (the health
body is flat: booleans and one string). -/
def objStringValues (fields : List (String × Json)) : List String :=
  fields.filterMap (fun p => match p.2 with | Json.str s => some s | _ => none)

/-! ## Helper lemmas -/

theorem head?_dropWhile_false (p : α → Bool) (l : List α) :
    ∀ a ∈ (l.dropWhile p).head?, p a = false := by
  induction l with
  | nil => intro a ha; simp at ha
  | cons x xs ih =>
    intro a ha
    by_cases hx : p x
    · rw [List.dropWhile_cons_of_pos hx] at ha
      exact ih a ha
    · rw [List.dropWhile_cons_of_neg hx] at ha
      simp only [List.head?_cons, Option.mem_def, Option.some.injEq] at ha
      subst ha
      exact Bool.eq_false_iff.mpr hx

theorem dropWhile_eq_self_of_head (p : α → Bool) (l : List α)
    (h : ∀ a ∈ l.head?, p a = false) : l.dropWhile p = l := by
  cases l with
  | nil => rfl
  | cons x xs =>
    have hx : p x = false := h x (by simp)
    exact List.dropWhile_cons_of_neg (by simp [hx])

theorem dropWhile_dropWhile (p : α → Bool) (l : List α) :
    (l.dropWhile p).dropWhile p = l.dropWhile p :=
  dropWhile_eq_self_of_head p _ (head?_dropWhile_false p l)

theorem exists_append_dropWhile (p : α → Bool) (l : List α) :
    ∃ t, l = t ++ l.dropWhile p := by
  induction l with
  | nil => exact ⟨[], rfl⟩
  | cons x xs ih =>
    by_cases hx : p x
    · rcases ih with ⟨t, ht⟩
      exact ⟨x :: t, by rw [List.dropWhile_cons_of_pos hx, List.cons_append, ← ht]⟩
    · exact ⟨[], by rw [List.dropWhile_cons_of_neg hx]; rfl⟩

theorem stripList_idem (l : List Char) : stripList (stripList l) = stripList l := by
  unfold stripList
  have h1 : ((((l.dropWhile Char.isWhitespace).reverse.dropWhile
      Char.isWhitespace)).reverse).dropWhile Char.isWhitespace =
      (((l.dropWhile Char.isWhitespace).reverse.dropWhile
      Char.isWhitespace)).reverse := by
    apply dropWhile_eq_self_of_head
    intro a ha
    rw [List.head?_reverse] at ha
    rcases exists_append_dropWhile Char.isWhitespace
      (l.dropWhile Char.isWhitespace).reverse with ⟨t, ht⟩
    by_cases hnil : (l.dropWhile Char.isWhitespace).reverse.dropWhile
        Char.isWhitespace = []
    · rw [hnil] at ha; simp at ha
    · have hlast : ((l.dropWhile Char.isWhitespace).reverse.dropWhile
          Char.isWhitespace).getLast? =
          (l.dropWhile Char.isWhitespace).reverse.getLast? := by
        conv_rhs => rw [ht]
        exact (List.getLast?_append_of_ne_nil t hnil).symm
      rw [hlast, List.getLast?_reverse] at ha
      exact head?_dropWhile_false Char.isWhitespace l a ha
  rw [h1, List.reverse_reverse, dropWhile_dropWhile]

theorem pyStrip_idem (s : String) : pyStrip (pyStrip s) = pyStrip s :=
  congrArg String.mk (stripList_idem s.data)

theorem pyStrip_empty : pyStrip "" = "" := rfl

theorem append_ne_empty_of_left (s t : String) (h : s ≠ "") : s ++ t ≠ "" := by
  intro hc
  apply h
  have hd : s.data ++ t.data = [] := congrArg String.data hc
  rcases List.append_eq_nil.mp hd with ⟨h1, _⟩
  cases s
  simp_all

/-! ## Claims -/

/-- Claim C3: for every user message and every outcome of the client cache
and the remote completion call (success with any text including empty, or
any raised failure, under either debug setting), the reply resolver
`_llm_reply` returns normally — it is a total function in this embedding
because the source catches every exception of the remote call — and the
string it returns is non-empty. -/
theorem C3_llm_reply_total_nonempty (env : LlmEnv) (msg : String) :
    llm_reply env msg ≠ "" := by
  cases hc : env.client with
  | none =>
    simp only [llm_reply, hc]
    decide
  | some c =>
    cases hor : env.oracle (mkCompletionRequest msg) with
    | success content =>
      simp only [llm_reply, hc, hor]
      by_cases hr : pyStrip (content.getD "") = ""
      · simp only [hr, if_true]
        decide
      · simp only [hr, if_false]
        exact hr
    | failure e =>
      simp only [llm_reply, hc, hor]
      by_cases hd : env.debug
      · simp only [hd, if_true]
        exact append_ne_empty_of_left DEBUG_PREFIX e (by decide)
      · simp only [hd, Bool.false_eq_true, if_false]
        decide

/-- Claim C4: whenever the client cache yields no client, `_llm_reply`
returns the exact fixed offline-fallback string (the one asking for
channel, audience, and desired outcome and promising a quick plan) for
every non-empty input message, and no remote call is attempted — the
result is the same for every oracle. -/
theorem C4_offline_fallback (env : LlmEnv) (msg : String)
    (hclient : env.client = none) (hmsg : msg ≠ "") :
    llm_reply env msg = OFFLINE_FALLBACK := by
  unfold llm_reply
  rw [hclient]

/-- Closed witness for C4. -/
theorem C4_offline_fallback_witness :
    llm_reply ⟨none, fun _ => CallResult.failure "boom", false⟩ "hello"
      = OFFLINE_FALLBACK :=
  C4_offline_fallback ⟨none, fun _ => CallResult.failure "boom", false⟩
    "hello" rfl (by decide)

/-- A concrete environment whose remote call always raises with error text
`snag`, with a client present and `DEBUG` off. -/
def snagEnv : LlmEnv :=
  ⟨some ⟨"k"⟩, fun _ => CallResult.failure "snag", false⟩

/-- Claim C5 counterexample: the claim asserts that with the debug flag
off the result never contains the raw error text; but the fixed apology
itself contains the substring `snag`, so for a remote failure whose error
text is `snag` the non-debug reply does contain the raw error text. -/
theorem C5_counterexample :
    llm_reply snagEnv "hi" = APOLOGY ∧
    APOLOGY = "I hit a " ++ "snag" ++
      " reaching my brain. Want to try again, or tell me the short version and I’ll help?" := by
  constructor
  · rfl
  · rfl

/-- Claim C5 (amended): when the remote completion call raises failure
text `e`, `_llm_reply` returns exactly the fixed apology string,
independent of `e`, if the debug flag is off; if the debug flag is on it
returns the debug prefix with the raw error text appended (so the
debug-mode result contains the raw error text).  The non-debug result does
not depend on `e`; it is not, however, guaranteed never to contain `e` as
a substring, since `e` may happen to occur in the fixed apology text. -/
theorem C5_debug_gated_error_detail (env : LlmEnv) (msg e : String)
    (c : ClientHandle) (hc : env.client = some c)
    (hor : env.oracle (mkCompletionRequest msg) = CallResult.failure e) :
    (env.debug = false → llm_reply env msg = APOLOGY) ∧
    (env.debug = true →
      llm_reply env msg = DEBUG_PREFIX ++ e ∧
      ∃ a b, llm_reply env msg = a ++ e ++ b) := by
  constructor
  · intro hd
    simp only [llm_reply, hc, hor, hd, Bool.false_eq_true, if_false]
  · intro hd
    have h : llm_reply env msg = DEBUG_PREFIX ++ e := by
      simp only [llm_reply, hc, hor, hd, if_true]
    exact ⟨h, DEBUG_PREFIX, "", by rw [h, String.append_empty]⟩

/-- A concrete environment whose remote call always raises with error text
`boom`, with a client present and `DEBUG` on. -/
def boomEnv : LlmEnv :=
  ⟨some ⟨"k"⟩, fun _ => CallResult.failure "boom", true⟩

/-- Closed witness for the amended C5. -/
theorem C5_debug_gated_error_detail_witness :
    llm_reply boomEnv "hi" = DEBUG_PREFIX ++ "boom" :=
  ((C5_debug_gated_error_detail boomEnv "hi" "boom" ⟨"k"⟩ rfl rfl).2 rfl).1

/-- An oracle that answers `A` when some request message's content is the
untrimmed string and `B` otherwise: a permitted outcome of the remote
call that distinguishes the untrimmed from the trimmed user message. -/
def distinguishingOracle : CompletionRequest → CallResult := fun r =>
  if r.messages.any (fun m => m.content = "  hello  ") then
    CallResult.success (some "A")
  else CallResult.success (some "B")

/-- The distinguishing oracle with a present client and `DEBUG` off. -/
def distinguishingEnv : LlmEnv := ⟨some ⟨"k"⟩, distinguishingOracle, false⟩

/-- Claim C7 counterexample: `_llm_reply` itself does not trim — it sends
its argument verbatim as the second message of the remote request
(`views.py` line 188 passes `user_msg` unchanged) — so there is an
outcome of the remote call under which the resolver behaves differently
on `"  hello  "` and on `"hello"`. -/
theorem C7_counterexample :
    llm_reply distinguishingEnv "  hello  " ≠ llm_reply distinguishingEnv "hello" := by
  decide

/-- Evaluation of the chat handler on a body whose single field is a
string message: the handler strips the message and either short-circuits
to the nudge or wraps the resolver's reply on the stripped message. -/
theorem chatbot_response_msg_str (env : LlmEnv) (s : String) :
    chatbot_response env (some (Json.obj [("message", Json.str s)])) =
    (if pyStrip s = "" then HttpResult.ok (replyJson NUDGE)
     else HttpResult.ok (replyJson (llm_reply env (pyStrip s)))) := by
  by_cases hs : s = ""
  · subst hs
    simp [chatbot_response, jsonGet, pyTruthy, pyStrip_empty]
  · have ht : (s != "") = true := bne_iff_ne.mpr hs
    simp only [chatbot_response, jsonGet, List.foldl, pyTruthy]
    simp only [eq_self_iff_true, if_true, Option.getD_some, ht]

/-- Claim C7 (amended): the trim invariance holds one level up, at the
chat HTTP handler, because `chatbot_response` strips the message before
invoking the resolver: for every environment and every message string the
endpoint behaves identically on the message and on its trimmed form.  The
resolver itself forwards its argument verbatim to the remote call. -/
theorem C7_endpoint_trim_invariant (env : LlmEnv) (s : String) :
    chatbot_response env (some (Json.obj [("message", Json.str s)])) =
    chatbot_response env (some (Json.obj [("message", Json.str (pyStrip s))])) := by
  rw [chatbot_response_msg_str, chatbot_response_msg_str, pyStrip_idem]

/-- Claim C6: for every POST whose JSON body is an object whose `message`
field is a string that is empty or whitespace-only after trimming, the
handler returns 200 with exactly the reply object carrying the nudge
string, and the result is the same for every environment — so neither the
reply resolver's remote call nor the client cache can influence it. -/
theorem C6_empty_message_nudge (env : LlmEnv) (fields : List (String × Json))
    (s : String) (hget : jsonGet fields "message" = some (Json.str s))
    (hempty : pyStrip s = "") :
    chatbot_response env (some (Json.obj fields)) = HttpResult.ok (replyJson NUDGE) := by
  simp only [chatbot_response, hget, Option.getD_some, pyTruthy]
  by_cases hs : s = ""
  · simp [hs]
  · have ht : (s != "") = true := bne_iff_ne.mpr hs
    simp [ht, hempty]

/-- Closed witness for C6: the whitespace-only message. -/
theorem C6_empty_message_nudge_witness :
    chatbot_response ⟨none, fun _ => CallResult.failure "boom", false⟩
      (some (Json.obj [("message", Json.str "   ")])) =
      HttpResult.ok (replyJson NUDGE) :=
  C6_empty_message_nudge ⟨none, fun _ => CallResult.failure "boom", false⟩
    [("message", Json.str "   ")] "   " rfl (by decide)

/-- Claim C10: a JSON-object body whose `message` field is absent, null,
or `false` is coerced by `(data.get("message") or "")` to the empty
string: the handler returns the 200 nudge reply, the same response as for
an explicit empty-string message, for every environment. -/
theorem C10_falsy_message_like_empty (env : LlmEnv)
    (fields : List (String × Json))
    (hget : jsonGet fields "message" = none ∨
            jsonGet fields "message" = some Json.null ∨
            jsonGet fields "message" = some (Json.bool false)) :
    chatbot_response env (some (Json.obj fields)) = HttpResult.ok (replyJson NUDGE) ∧
    chatbot_response env (some (Json.obj fields)) =
      chatbot_response env (some (Json.obj [("message", Json.str "")])) := by
  have h : chatbot_response env (some (Json.obj fields)) =
      HttpResult.ok (replyJson NUDGE) := by
    rcases hget with h | h | h <;>
      simp [chatbot_response, h, pyTruthy]
  exact ⟨h, by rw [h]; rfl⟩

/-- Closed witness for C10: a body with no `message` field at all. -/
theorem C10_falsy_message_like_empty_witness :
    chatbot_response ⟨none, fun _ => CallResult.failure "boom", false⟩
      (some (Json.obj [("topic", Json.num 1)])) =
      HttpResult.ok (replyJson NUDGE) :=
  (C10_falsy_message_like_empty ⟨none, fun _ => CallResult.failure "boom", false⟩
    [("topic", Json.num 1)] (Or.inl rfl)).1

/-- A concrete environment for closed instances of handler claims. -/
def plainEnv : LlmEnv := ⟨none, fun _ => CallResult.failure "", false⟩

/-- Claim C1 counterexample: a body that parses as JSON (the array `[]`)
does cause an unhandled fault: the handler's `try` only wraps
`json.loads`, so `data.get("message")` raises an uncaught
`AttributeError` on a non-object document — contradicting the claim that
any JSON-parsable body yields a 200 reply object. -/
theorem C1_counterexample :
    chatbot_response plainEnv (some (Json.arr [])) =
      HttpResult.fault "AttributeError" := rfl

/-- Claim C1 (amended): a body that fails to parse is answered with the
400 bad-request response, and a body parsing to a JSON object whose
`message` value is falsy or a string is answered with status 200 and a
reply object of shape `\x7b reply: string \x7d`; but a body parsing to a
JSON non-object, or to an object whose `message` value is truthy and not
a string, makes the handler raise an unhandled `AttributeError` instead
of producing a response. -/
theorem C1_boundary_behavior (env : LlmEnv) (body : Option Json) :
    (body = none → chatbot_response env body = HttpResult.badRequest "Invalid JSON") ∧
    (∀ fields, body = some (Json.obj fields) →
      (pyTruthy ((jsonGet fields "message").getD Json.null) = false ∨
        (∃ s, (jsonGet fields "message").getD Json.null = Json.str s)) →
      ∃ r, chatbot_response env body =
        HttpResult.ok (Json.obj [("reply", Json.str r)])) ∧
    (∀ j, body = some j → (∀ fields, j ≠ Json.obj fields) →
      chatbot_response env body = HttpResult.fault "AttributeError") ∧
    (∀ fields, body = some (Json.obj fields) →
      pyTruthy ((jsonGet fields "message").getD Json.null) = true →
      (∀ s, (jsonGet fields "message").getD Json.null ≠ Json.str s) →
      chatbot_response env body = HttpResult.fault "AttributeError") := by
  refine ⟨?_, ?_, ?_, ?_⟩
  · intro h; subst h; rfl
  · intro fields h hv
    subst h
    rcases hv with hfalsy | ⟨s, hstr⟩
    · refine ⟨NUDGE, ?_⟩
      simp [chatbot_response, replyJson, hfalsy]
    · by_cases ht : pyTruthy ((jsonGet fields "message").getD Json.null) = true
      · rw [hstr] at ht
        by_cases he : pyStrip s = ""
        · refine ⟨NUDGE, ?_⟩
          simp [chatbot_response, replyJson, ht, hstr, he]
        · refine ⟨llm_reply env (pyStrip s), ?_⟩
          simp [chatbot_response, replyJson, ht, hstr, he]
      · have hf : pyTruthy ((jsonGet fields "message").getD Json.null) = false := by
          simpa using ht
        refine ⟨NUDGE, ?_⟩
        simp [chatbot_response, replyJson, hf]
  · intro j h hnotobj
    subst h
    cases j with
    | obj fields => exact absurd rfl (hnotobj fields)
    | null => rfl
    | bool b => rfl
    | num n => rfl
    | str s => rfl
    | arr xs => rfl
  · intro fields h ht hnotstr
    subst h
    cases hv : (jsonGet fields "message").getD Json.null with
    | str s => exact absurd hv (hnotstr s)
    | null => rw [hv] at ht; simp [pyTruthy] at ht
    | bool b => rw [hv] at ht; simp [chatbot_response, hv, ht]
    | num n => rw [hv] at ht; simp [chatbot_response, hv, ht]
    | arr xs => rw [hv] at ht; simp [chatbot_response, hv, ht]
    | obj fs => rw [hv] at ht; simp [chatbot_response, hv, ht]

/-- Closed witness for the amended C1: a well-formed message is answered
with a 200 reply object. -/
theorem C1_boundary_behavior_witness :
    ∃ r, chatbot_response plainEnv (some (Json.obj [("message", Json.str "hey")])) =
      HttpResult.ok (Json.obj [("reply", Json.str r)]) :=
  (C1_boundary_behavior plainEnv (some (Json.obj [("message", Json.str "hey")]))).2.1
    [("message", Json.str "hey")] rfl (Or.inr ⟨"hey", rfl⟩)

/-- Any first call on the virgin cache cell leaves the cell holding
exactly the value it returned: the transition out of the sentinel state is
terminal. -/
theorem get_openai_client_first_caches (env : BuildEnv) :
    (get_openai_client env CacheState.sentinel).state =
      CacheState.cached (get_openai_client env CacheState.sentinel).ret := by
  unfold get_openai_client
  by_cases hs : env.sdkInstalled
  · simp only [hs, Bool.not_true, Bool.false_eq_true, if_false]
    cases resolveKey env.settingsKey env.envKey with
    | none => rfl
    | some key =>
      by_cases hc : env.constructOk
      · simp [hc]
      · simp [hc]
  · simp [hs]

/-- A call on an already-decided cache cell returns the cached result,
leaves the cell unchanged, and performs no construction. -/
theorem get_openai_client_cached (env : BuildEnv) (r : Option ClientHandle) :
    get_openai_client env (CacheState.cached r) =
      ⟨CacheState.cached r, r, false⟩ := rfl

/-- A run that starts on a decided cell only echoes the cached result. -/
theorem runClientCalls_cached (envs : List BuildEnv) (r : Option ClientHandle) :
    runClientCalls envs (CacheState.cached r) =
      envs.map (fun _ => (⟨CacheState.cached r, r, false⟩ : StepResult)) := by
  induction envs with
  | nil => rfl
  | cons e rest ih =>
    show get_openai_client e (CacheState.cached r) ::
        runClientCalls rest (get_openai_client e (CacheState.cached r)).state = _
    rw [get_openai_client_cached, List.map_cons]
    show (⟨CacheState.cached r, r, false⟩ : StepResult) ::
        runClientCalls rest (CacheState.cached r) = _
    rw [ih]

/-- Claim C2: in any sequence of `_get_openai_client()` calls within one
process — under arbitrary, possibly changing environments — the build path
runs only on the first call; every later call returns the first call's
result unchanged (the built handle, or `None` forever after a missing SDK,
an absent credential, or a failed construction) and attempts no
construction; over the whole run the constructor is invoked at most
once. -/
theorem C2_cache_single_attempt (e : BuildEnv) (rest : List BuildEnv) :
    (get_openai_client e CacheState.sentinel).state =
      CacheState.cached (get_openai_client e CacheState.sentinel).ret ∧
    runClientCalls (e :: rest) CacheState.sentinel =
      get_openai_client e CacheState.sentinel ::
        rest.map (fun _ =>
          (⟨CacheState.cached (get_openai_client e CacheState.sentinel).ret,
            (get_openai_client e CacheState.sentinel).ret, false⟩ : StepResult)) ∧
    ((runClientCalls (e :: rest) CacheState.sentinel).filter
        (fun r => r.constructionAttempted)).length ≤ 1 ∧
    (e.sdkInstalled = false →
      (get_openai_client e CacheState.sentinel).ret = none) ∧
    (resolveKey e.settingsKey e.envKey = none →
      (get_openai_client e CacheState.sentinel).ret = none) ∧
    (∀ k, e.sdkInstalled = true → resolveKey e.settingsKey e.envKey = some k →
      e.constructOk = true →
      (get_openai_client e CacheState.sentinel).ret = some ⟨k⟩) ∧
    (∀ k, e.sdkInstalled = true → resolveKey e.settingsKey e.envKey = some k →
      e.constructOk = false →
      (get_openai_client e CacheState.sentinel).ret = none) := by
  have h1 := get_openai_client_first_caches e
  have h2 : runClientCalls (e :: rest) CacheState.sentinel =
      get_openai_client e CacheState.sentinel ::
        rest.map (fun _ =>
          (⟨CacheState.cached (get_openai_client e CacheState.sentinel).ret,
            (get_openai_client e CacheState.sentinel).ret, false⟩ : StepResult)) := by
    show get_openai_client e CacheState.sentinel ::
        runClientCalls rest (get_openai_client e CacheState.sentinel).state = _
    rw [h1, runClientCalls_cached]
  refine ⟨h1, h2, ?_, ?_, ?_, ?_, ?_⟩
  case refine_2 =>
    intro hs
    simp [get_openai_client, hs]
  case refine_3 =>
    intro hk
    by_cases hs : e.sdkInstalled
    · simp [get_openai_client, hs, hk]
    · simp [get_openai_client, hs]
  case refine_4 =>
    intro k hs hk hc
    simp [get_openai_client, hs, hk, hc]
  case refine_5 =>
    intro k hs hk hc
    simp [get_openai_client, hs, hk, hc]
  rw [h2]
  have h3 : ∀ l : List BuildEnv,
      (l.map (fun _ =>
        (⟨CacheState.cached (get_openai_client e CacheState.sentinel).ret,
          (get_openai_client e CacheState.sentinel).ret, false⟩ : StepResult))).filter
        (fun r => r.constructionAttempted) = [] := by
    intro l
    induction l with
    | nil => rfl
    | cons x xs ih => simp [List.filter, ih]
  rw [List.filter_cons]
  by_cases hb : (get_openai_client e CacheState.sentinel).constructionAttempted
  · simp [hb, h3]
  · simp [hb, h3]

/-- Closed witness for C2: with the SDK present, a configured setting and
a succeeding constructor, the first call returns the built handle. -/
theorem C2_cache_single_attempt_witness :
    (get_openai_client ⟨true, some "sk-secret", none, true⟩
      CacheState.sentinel).ret = some ⟨"sk-secret"⟩ :=
  (C2_cache_single_attempt ⟨true, some "sk-secret", none, true⟩
    []).2.2.2.2.2.1 "sk-secret" rfl (by decide) rfl

/-- Claim C9: credential resolution prefers the application setting over
the process environment: a present, non-empty setting wins; when the
setting is absent or empty, the environment value (itself normalized:
absent or empty is not a credential) is used; when both are absent or
empty the resolved credential is `none` and the first cache call yields no
client and caches `None`, raising nothing (the embedding is total). -/
theorem C9_credential_preference (env : BuildEnv) :
    (∀ v, env.settingsKey = some v → v ≠ "" →
      resolveKey env.settingsKey env.envKey = some v) ∧
    (env.settingsKey.getD "" = "" →
      resolveKey env.settingsKey env.envKey =
        (if env.envKey.getD "" = "" then none else some (env.envKey.getD ""))) ∧
    (env.settingsKey.getD "" = "" → env.envKey.getD "" = "" →
      resolveKey env.settingsKey env.envKey = none ∧
      (get_openai_client env CacheState.sentinel).ret = none ∧
      (get_openai_client env CacheState.sentinel).state = CacheState.cached none) := by
  refine ⟨?_, ?_, ?_⟩
  · intro v hv hne
    simp [resolveKey, hv, hne]
  · intro hempty
    unfold resolveKey
    rw [hempty]
    by_cases he : env.envKey.getD "" = ""
    · simp [he]
    · simp [he]
  · intro hempty henv
    have hres : resolveKey env.settingsKey env.envKey = none := by
      unfold resolveKey
      rw [hempty, henv]
      simp
    refine ⟨hres, ?_, ?_⟩ <;>
      · unfold get_openai_client
        by_cases hs : env.sdkInstalled
        · simp [hs, hres]
        · simp [hs]

/-- Closed witness for C9: the setting present but empty and no
environment variable. -/
theorem C9_credential_preference_witness :
    resolveKey (some "") none = none ∧
    (get_openai_client ⟨true, some "", none, true⟩ CacheState.sentinel).ret = none :=
  ⟨((C9_credential_preference ⟨true, some "", none, true⟩).2.2 rfl rfl).1,
   ((C9_credential_preference ⟨true, some "", none, true⟩).2.2 rfl rfl).2.1⟩

/-- On a credential longer than eight characters, `_mask` keeps the first
four characters, the ellipsis marker, and the last four. -/
theorem mask_long (key : String) (hlen : 8 < key.length) :
    mask key = String.mk (key.data.take 4) ++ "…" ++
      String.mk (key.data.drop (key.length - 4)) := by
  have hne : key ≠ "" := by
    intro h
    rw [h] at hlen
    simp at hlen
  have hcond : (key != "" && decide (key.length > 8)) = true := by
    simp [bne_iff_ne, hne, hlen]
  simp only [mask]
  rw [if_pos hcond]

/-- The masked form of a long credential always has exactly nine
characters. -/
theorem mask_long_length (key : String) (hlen : 8 < key.length) :
    (mask key).length = 9 := by
  rw [mask_long key hlen]
  rw [String.length_append, String.length_append]
  show (key.data.take 4).length + ("…" : String).length +
    (key.data.drop (key.length - 4)).length = 9
  rw [List.length_take, List.length_drop]
  have h1 : ("…" : String).length = 1 := rfl
  rw [h1]
  have h2 : key.length = key.data.length := rfl
  omega

/-- Claim C8 counterexample: the claim says the masked preview is never
equal to the raw credential for any credential longer than eight
characters; but a nine-character credential whose middle character is the
ellipsis marker itself is a fixed point of `_mask`, so the "masked"
preview (and hence the probe's `key_seen` value) is the raw credential. -/
theorem C8_counterexample :
    8 < ("abcd…efgh" : String).length ∧
    mask "abcd…efgh" = "abcd…efgh" := by
  constructor
  · decide
  · decide

/-- Claim C8 (amended): for a credential longer than eight characters the
masked preview is the first four characters, the ellipsis marker, and the
last four (omitting every middle character); it differs from the raw
credential unless the credential is exactly nine characters long with the
ellipsis marker as its middle character.  An absent credential is reported
as the literal `(missing)` and a short one as the literal `(set)`, neither
carrying credential characters.  The health probe's only string value is
`key_seen`, which is the masked preview of the credential the or-chain
`key_settings or key_env or ""` selects. -/
theorem C8_mask_and_probe (key : String) (env : BuildEnv) (st : CacheState)
    (dbg : Bool) :
    (8 < key.length →
      mask key = String.mk (key.data.take 4) ++ "…" ++
        String.mk (key.data.drop (key.length - 4))) ∧
    (8 < key.length → (key.length ≠ 9 ∨ key.data[4]? ≠ some '…') →
      mask key ≠ key) ∧
    (key ≠ "" → key.length ≤ 8 → mask key = "(set)") ∧
    (key = "" → mask key = "(missing)") ∧
    (chat_health env st dbg).1 = Json.obj (healthFields env st dbg) ∧
    objStringValues (healthFields env st dbg) =
      [mask (pyOrKey env.settingsKey env.envKey)] := by
  refine ⟨mask_long key, ?_, ?_, ?_, rfl, rfl⟩
  · intro hlen hguard heq
    rcases hguard with hne9 | hmid
    · have h := congrArg String.length heq
      rw [mask_long_length key hlen] at h
      exact hne9 h.symm
    · apply hmid
      have h := congrArg (fun s => s.data[4]?) heq
      rw [mask_long key hlen] at h
      have hdata : (String.mk (key.data.take 4) ++ "…" ++
          String.mk (key.data.drop (key.length - 4))).data =
          (key.data.take 4 ++ List.cons '…' List.nil) ++
            key.data.drop (key.length - 4) := by
        rw [String.data_append, String.data_append]
      simp only [hdata] at h
      have hlt : key.length = key.data.length := rfl
      have ht4 : (key.data.take 4).length = 4 := by
        rw [List.length_take]
        omega
      have hcompute : ((key.data.take 4 ++ List.cons '…' List.nil) ++
          key.data.drop (key.length - 4))[4]? = some '…' := by
        rw [List.getElem?_append]
        rw [List.length_append, ht4]
        simp only [List.length_cons, List.length_nil]
        rw [if_pos (by omega)]
        rw [List.getElem?_append_right (by omega)]
        rw [ht4]
        rfl
      exact h.symm.trans hcompute
  · intro hne hle
    have hcond : (key != "" && decide (key.length > 8)) = false := by
      simp [bne_iff_ne, hne]
      omega
    have hcond2 : (key != "") = true := by simp [bne_iff_ne, hne]
    simp only [mask]
    rw [if_neg, if_pos hcond2]
    simp [hcond]
  · intro h
    subst h
    decide

/-- Closed witness for the amended C8. -/
theorem C8_mask_and_probe_witness :
    mask "abcdefghijkl" = "abcd" ++ "…" ++ "ijkl" ∧
    mask "abcdefghijkl" ≠ "abcdefghijkl" :=
  ⟨by
    have h := (C8_mask_and_probe "abcdefghijkl" ⟨true, none, none, true⟩
      CacheState.sentinel false).1 (by decide)
    rw [h]
    rfl,
   (C8_mask_and_probe "abcdefghijkl" ⟨true, none, none, true⟩
      CacheState.sentinel false).2.1 (by decide) (Or.inl (by decide))⟩

end Liorae
